import Mathlib

/-!
Verification of `mullvad-daemon/src/tunnel.rs` (tunnel parameter generator).

The Rust module is shallowly embedded: the mutable `InnerParametersGenerator`
behind the mutex becomes an explicit state record, `generate` and
`create_tunnel_parameters` become pure state-passing functions, and the two
panic sites (`unreachable!` on Android OpenVPN, `Option::unwrap` on relay
locations in `get_last_location`) are made explicit with a `PanicOr` result
wrapper.  Types from sibling crates (`mullvad_types`, `talpid_types`,
`mullvad_relay_selector`) are embedded down to exactly the fields this module
reads; payloads the module only passes through (peer configs, obfuscation
configs, proxy settings, option bundles) are opaque tagged values.
-/

namespace Tunnel

/-- Stand-in for `f64` coordinates; `tunnel.rs` only copies them. -/
abbrev Coord := Int

structure Ipv4Addr where
  octets : Nat
deriving DecidableEq, Repr

structure Ipv6Addr where
  segments : Nat
deriving DecidableEq, Repr

/-- `std::net::IpAddr`. -/
inductive IpAddr where
  | v4 (addr : Ipv4Addr)
  | v6 (addr : Ipv6Addr)
deriving DecidableEq, Repr

/-- `ipnetwork::Ipv4Network`; the module only calls `.ip()`. -/
structure Ipv4Network where
  ip : Ipv4Addr
deriving DecidableEq, Repr

/-- `ipnetwork::Ipv6Network`; the module only calls `.ip()`. -/
structure Ipv6Network where
  ip : Ipv6Addr
deriving DecidableEq, Repr

/-- `talpid_types::net::wireguard::PrivateKey`, opaque to this module. -/
structure PrivateKey where
  key : Nat
deriving DecidableEq, Repr

/-- The address assignment inside `mullvad_types::wireguard::WireguardData`. -/
structure WgAddresses where
  ipv4_address : Ipv4Network
  ipv6_address : Ipv6Network
deriving DecidableEq, Repr

/-- `mullvad_types::wireguard::WireguardData`, the fields `tunnel.rs` reads. -/
structure WireguardData where
  private_key : PrivateKey
  addresses : WgAddresses
deriving DecidableEq, Repr

/-- `mullvad_types::location::Location`, the fields `get_last_location` reads. -/
structure Location where
  country : String
  city : String
  latitude : Coord
  longitude : Coord
deriving DecidableEq, Repr

/-- `mullvad_types::relay_list::Relay`, the fields `tunnel.rs` reads. -/
structure Relay where
  hostname : String
  location : Option Location
deriving DecidableEq, Repr

/-- `mullvad_types::location::GeoIpLocation`. -/
structure GeoIpLocation where
  ipv4 : Option Ipv4Addr
  ipv6 : Option Ipv6Addr
  country : String
  city : Option String
  latitude : Coord
  longitude : Coord
  mullvad_exit_ip : Bool
  hostname : Option String
  bridge_hostname : Option String
  entry_hostname : Option String
  obfuscator_hostname : Option String
deriving DecidableEq, Repr

/-- Opaque `talpid_types::net::openvpn` endpoint payload. -/
structure OpenVpnEndpoint where
  data : Nat
deriving DecidableEq, Repr

/-- Opaque `talpid_types::net::wireguard::PeerConfig`. -/
structure PeerConfig where
  data : Nat
deriving DecidableEq, Repr

/-- `mullvad_types::endpoint::MullvadWireguardEndpoint`: the fields read at the
WireGuard construction site (`peer`, `exit_peer`, gateways). -/
structure MullvadWireguardEndpoint where
  peer : PeerConfig
  exit_peer : Option PeerConfig
  ipv4_gateway : Ipv4Addr
  ipv6_gateway : Ipv6Addr
deriving DecidableEq, Repr

/-- `mullvad_types::endpoint::MullvadEndpoint`. -/
inductive MullvadEndpoint where
  | OpenVpn (endpoint : OpenVpnEndpoint)
  | Wireguard (endpoint : MullvadWireguardEndpoint)
deriving DecidableEq, Repr

/-- Opaque proxy settings carried by a selected bridge. -/
structure ProxySettings where
  data : Nat
deriving DecidableEq, Repr

/-- Opaque obfuscator configuration. -/
structure ObfuscatorConfig where
  data : Nat
deriving DecidableEq, Repr

/-- Opaque `openvpn::TunnelOptions` bundle (only cloned by this module). -/
structure OpenVpnOptions where
  data : Nat
deriving DecidableEq, Repr

/-- Opaque wireguard tunnel option bundle (only cloned by this module). -/
structure WireguardOptions where
  data : Nat
deriving DecidableEq, Repr

/-- `mullvad_types::settings::TunnelOptions.wireguard`: the module reads its
`options` field. -/
structure WireguardOptionsWrapper where
  options : WireguardOptions
deriving DecidableEq, Repr

/-- Opaque `GenericTunnelOptions` bundle (only cloned by this module). -/
structure GenericOptions where
  data : Nat
deriving DecidableEq, Repr

/-- `mullvad_types::settings::TunnelOptions`, the fields `tunnel.rs` reads. -/
structure TunnelOptions where
  openvpn : OpenVpnOptions
  wireguard : WireguardOptionsWrapper
  generic : GenericOptions
deriving DecidableEq, Repr

/-- `openvpn::ConnectionConfig::new(endpoint, username, password)`. -/
structure OpenVpnConnectionConfig where
  endpoint : OpenVpnEndpoint
  username : String
  password : String
deriving DecidableEq, Repr

/-- `openvpn::TunnelParameters`. -/
structure OpenVpnTunnelParameters where
  config : OpenVpnConnectionConfig
  options : OpenVpnOptions
  generic_options : GenericOptions
  proxy : Option ProxySettings
deriving DecidableEq, Repr

/-- `wireguard::TunnelConfig`. -/
structure TunnelConfig where
  private_key : PrivateKey
  addresses : List IpAddr
deriving DecidableEq, Repr

/-- `wireguard::ConnectionConfig`. -/
structure WireguardConnectionConfig where
  tunnel : TunnelConfig
  peer : PeerConfig
  exit_peer : Option PeerConfig
  ipv4_gateway : Ipv4Addr
  ipv6_gateway : Option Ipv6Addr
deriving DecidableEq, Repr

/-- `wireguard::TunnelParameters`. -/
structure WireguardTunnelParameters where
  connection : WireguardConnectionConfig
  options : WireguardOptions
  generic_options : GenericOptions
  obfuscation : Option ObfuscatorConfig
deriving DecidableEq, Repr

/-- `talpid_types::net::TunnelParameters` (the `.into()` targets). -/
inductive TunnelParameters where
  | openvpn (params : OpenVpnTunnelParameters)
  | wireguard (params : WireguardTunnelParameters)
deriving DecidableEq, Repr

/-- `mullvad_relay_selector::SelectedBridge`. -/
inductive SelectedBridge where
  | Normal (settings : ProxySettings) (relay : Relay)
  | Custom (settings : ProxySettings)
deriving DecidableEq, Repr

/-- `mullvad_relay_selector::SelectedObfuscator`. -/
structure SelectedObfuscator where
  relay : Relay
  config : ObfuscatorConfig
deriving DecidableEq, Repr

/-- The `Normal` payload of `SelectedRelay`: the fields `generate` reads
(`exit_relay`, `entry_relay`, `endpoint`). -/
structure NormalSelectedRelay where
  exit_relay : Relay
  entry_relay : Option Relay
  endpoint : MullvadEndpoint
deriving DecidableEq, Repr

/-- `CustomTunnelEndpoint`.  Its `to_tunnel_parameters` performs hostname
resolution (external I/O in `talpid_types`); the call is modelled by its
outcome: `resolved = none` means resolution fails, `resolved = some params`
means it succeeds producing `params`. -/
structure CustomTunnelEndpoint where
  resolved : Option TunnelParameters
deriving DecidableEq, Repr

/-- `custom_relay.to_tunnel_parameters(tunnel_options, None)`, modelled by the
recorded outcome (see `CustomTunnelEndpoint`). -/
def CustomTunnelEndpoint.to_tunnel_parameters (c : CustomTunnelEndpoint)
    (_tunnel_options : TunnelOptions) (_proxy : Option ProxySettings) :
    Option TunnelParameters :=
  c.resolved

/-- `mullvad_relay_selector::SelectedRelay`. -/
inductive SelectedRelay where
  | Custom (custom : CustomTunnelEndpoint)
  | Normal (constraints : NormalSelectedRelay)
deriving DecidableEq, Repr

/-- `mullvad_relay_selector::Error`: `generate` distinguishes `NoBridge`
from every other variant, so the others are collapsed into a tagged family. -/
inductive RelaySelectorError where
  | NoBridge
  | Other (kind : Nat)
deriving DecidableEq, Repr

/-- `RelaySelector::get_relay(retry_attempt)` modelled as a function from the
retry attempt to the selection outcome. -/
abbrev RelaySelector :=
  Nat → Except RelaySelectorError
    (SelectedRelay × Option SelectedBridge × Option SelectedObfuscator)

/-- The `Error` enum of `tunnel.rs`. -/
inductive Error where
  | NoAuthDetails
  | NoRelayAvailable
  | NoBridgeAvailable
  | ResolveCustomHostnameError
deriving DecidableEq, Repr

/-- The `err_derive::Error(display = ...)` strings of `Error`, verbatim from
the attribute on each variant. -/
def Error.display : Error → String
  | .NoAuthDetails => "Not logged in on a valid device"
  | .NoRelayAvailable => "No bridge available"
  | .NoBridgeAvailable => "No bridge available"
  | .ResolveCustomHostnameError => "Failed to resolve hostname for custom relay"

/-- `AuthDetails`.  On Android the `openvpn_user` field does not exist
(`cfg(not(target_os = "android"))`); it is kept in the record and simply never
read by the Android code paths. -/
structure AuthDetails where
  openvpn_user : String
  wg_data : WireguardData
deriving DecidableEq, Repr

/-- `LastSelectedRelays`.  The `OpenVpn` variant is compiled out on Android;
here it is always present and provably never constructed by Android runs. -/
inductive LastSelectedRelays where
  | WireGuard (wg_entry : Option Relay) (wg_exit : Relay) (obfuscator : Option Relay)
  | OpenVpn (relay : Relay) (bridge : Option Relay)
deriving DecidableEq, Repr

/-- The `cfg(target_os = "android")` distinction as a runtime parameter. -/
inductive Platform where
  | android
  | desktop
deriving DecidableEq, Repr

/-- Result wrapper making the panic sites (`unreachable!`, `Option::unwrap`)
explicit. -/
inductive PanicOr (α : Type) where
  | panic (msg : String)
  | ok (val : α)
deriving DecidableEq, Repr

def PanicOr.isPanic : PanicOr α → Bool
  | .panic _ => true
  | .ok _ => false

/-- `InnerParametersGenerator`: the state behind the mutex.  The relay
selector handle is modelled by its `get_relay` behaviour. -/
structure InnerParametersGenerator where
  relay_selector : RelaySelector
  tunnel_options : TunnelOptions
  auth_details : Option AuthDetails
  last_generated_relays : Option LastSelectedRelays

/-- `InnerParametersGenerator::create_tunnel_parameters`.  Mutation of
`last_generated_relays` is explicit state passing; the Android `OpenVpn`
match arm is the `unreachable!` panic. -/
def InnerParametersGenerator.create_tunnel_parameters (platform : Platform)
    (s : InnerParametersGenerator) (relay : Relay) (entry_relay : Option Relay)
    (endpoint : MullvadEndpoint) (bridge : Option SelectedBridge)
    (obfuscator : Option SelectedObfuscator) :
    PanicOr (Except Error TunnelParameters × InnerParametersGenerator) :=
  match s.auth_details with
  | none => .ok (.error .NoAuthDetails, s)
  | some auth_details =>
    match endpoint with
    | .OpenVpn endpoint =>
      match platform with
      | .android => .panic "OpenVPN is not supported on Android"
      | .desktop =>
        let bridgePair : Option ProxySettings × Option Relay :=
          match bridge with
          | some (.Normal settings relay) => (some settings, some relay)
          | some (.Custom settings) => (some settings, none)
          | none => (none, none)
        let last : Option LastSelectedRelays := some (.OpenVpn relay bridgePair.2)
        let s := { s with last_generated_relays := last }
        .ok (.ok (.openvpn {
          config := {
            endpoint := endpoint
            username := auth_details.openvpn_user
            password := "-" }
          options := s.tunnel_options.openvpn
          generic_options := s.tunnel_options.generic
          proxy := bridgePair.1 }), s)
    | .Wireguard endpoint =>
      let tunnel : TunnelConfig := {
        private_key := auth_details.wg_data.private_key
        addresses := [
          .v4 auth_details.wg_data.addresses.ipv4_address.ip,
          .v6 auth_details.wg_data.addresses.ipv6_address.ip] }
      let obfuscatorPair : Option Relay × Option ObfuscatorConfig :=
        match obfuscator with
        | some obfuscator => (some obfuscator.relay, some obfuscator.config)
        | none => (none, none)
      let last : Option LastSelectedRelays :=
        some (.WireGuard entry_relay relay obfuscatorPair.1)
      let s := { s with last_generated_relays := last }
      .ok (.ok (.wireguard {
        connection := {
          tunnel := tunnel
          peer := endpoint.peer
          exit_peer := endpoint.exit_peer
          ipv4_gateway := endpoint.ipv4_gateway
          ipv6_gateway := some endpoint.ipv6_gateway }
        options := s.tunnel_options.wireguard.options
        generic_options := s.tunnel_options.generic
        obfuscation := obfuscatorPair.2 }), s)

/-- `InnerParametersGenerator::generate`. -/
def InnerParametersGenerator.generate (platform : Platform)
    (s : InnerParametersGenerator) (retry_attempt : Nat) :
    PanicOr (Except Error TunnelParameters × InnerParametersGenerator) :=
  match s.auth_details with
  | none => .ok (.error .NoAuthDetails, s)
  | some _ =>
    match s.relay_selector retry_attempt with
    | .ok (.Custom custom_relay, _bridge, _obfuscator) =>
      match custom_relay.to_tunnel_parameters s.tunnel_options none with
      | some params => .ok (.ok params, s)
      | none => .ok (.error .ResolveCustomHostnameError, s)
    | .ok (.Normal constraints, bridge, obfuscator) =>
      s.create_tunnel_parameters platform constraints.exit_relay
        constraints.entry_relay constraints.endpoint bridge obfuscator
    | .error .NoBridge => .ok (.error .NoBridgeAvailable, s)
    | .error _ => .ok (.error .NoRelayAvailable, s)

/-- `ParametersGenerator::get_last_location`, reading the locked inner state.
The two `location.as_ref().cloned().unwrap()` sites become explicit panics. -/
def get_last_location (s : InnerParametersGenerator) :
    PanicOr (Option GeoIpLocation) :=
  match s.last_generated_relays with
  | none => .ok none
  | some relays =>
    let take_hostname : Option Relay → Option String :=
      fun relay => relay.map (fun relay => relay.hostname)
    let fields : PanicOr (String × Option String × Option String × Option String × Location) :=
      match relays with
      | .WireGuard entry exit obfuscator =>
        match exit.location with
        | none => .panic "called `Option::unwrap()` on a `None` value"
        | some location =>
          .ok (exit.hostname, none, take_hostname entry, take_hostname obfuscator, location)
      | .OpenVpn relay bridge =>
        match relay.location with
        | none => .panic "called `Option::unwrap()` on a `None` value"
        | some location =>
          .ok (relay.hostname, take_hostname bridge, none, none, location)
    match fields with
    | .panic msg => .panic msg
    | .ok (hostname, bridge_hostname, entry_hostname, obfuscator_hostname, location) =>
      .ok (some {
        ipv4 := none
        ipv6 := none
        country := location.country
        city := some location.city
        latitude := location.latitude
        longitude := location.longitude
        mullvad_exit_ip := true
        hostname := some hostname
        bridge_hostname := bridge_hostname
        entry_hostname := entry_hostname
        obfuscator_hostname := obfuscator_hostname })

/-- The error type of `AccountManagerHandle::data()` (external), opaque. -/
structure FetchError where
  cause : Nat
deriving DecidableEq, Repr

/-- `mullvad_types::device::DeviceData`, the fields `tunnel.rs` reads. -/
structure DeviceData where
  token : String
  wg_data : WireguardData
deriving DecidableEq, Repr

/-- `ParametersGenerator::new` composed with the synchronous tail of
`spawn_auth_updater`: the inner state starts with empty caches, then the one
initial `account_manager.data()` fetch (modelled by its outcome
`fetch_result`) installs the initial `AuthDetails`; a fetch error becomes
`Error::NoAuthDetails`, while `Ok(None)` (no device) leaves the cache empty
and construction succeeds.  The background event subscriber task is out of
scope of this synchronous model. -/
def ParametersGenerator.new (fetch_result : Except FetchError (Option DeviceData))
    (relay_selector : RelaySelector) (tunnel_options : TunnelOptions) :
    Except Error InnerParametersGenerator :=
  match fetch_result with
  | .error _ => .error .NoAuthDetails
  | .ok data =>
    .ok {
      relay_selector := relay_selector
      tunnel_options := tunnel_options
      auth_details := data.map (fun data => {
        openvpn_user := data.token
        wg_data := data.wg_data })
      last_generated_relays := none }

/-! ## Concrete fixtures used by witnesses and counterexamples -/

def sampleOptions : TunnelOptions :=
  { openvpn := ⟨0⟩, wireguard := ⟨⟨0⟩⟩, generic := ⟨0⟩ }

def sampleWgData : WireguardData :=
  { private_key := ⟨1⟩
    addresses := { ipv4_address := ⟨⟨10⟩⟩, ipv6_address := ⟨⟨20⟩⟩ } }

def sampleAuth : AuthDetails :=
  { openvpn_user := "account-token", wg_data := sampleWgData }

def selectorNoBridge : RelaySelector := fun _ => .error .NoBridge

def stateNoAuth : InnerParametersGenerator :=
  { relay_selector := selectorNoBridge
    tunnel_options := sampleOptions
    auth_details := none
    last_generated_relays := none }

def stateAuthNoBridge : InnerParametersGenerator :=
  { relay_selector := selectorNoBridge
    tunnel_options := sampleOptions
    auth_details := some sampleAuth
    last_generated_relays := none }

/-! ## Helper lemmas about `generate` -/

/-- The error translation applied at the two `Err(..)` arms of `generate`:
`NoBridge` becomes `NoBridgeAvailable`, everything else `NoRelayAvailable`. -/
def mapSelectorError : RelaySelectorError → Error
  | .NoBridge => .NoBridgeAvailable
  | .Other _ => .NoRelayAvailable

/-- `generate` run against a selection outcome that is a selector error. -/
theorem generate_selector_error {s : InnerParametersGenerator} {n : Nat}
    {a : AuthDetails} {e : RelaySelectorError} (platform : Platform)
    (ha : s.auth_details = some a) (he : s.relay_selector n = .error e) :
    InnerParametersGenerator.generate platform s n =
      .ok (.error (mapSelectorError e), s) := by
  cases e with
  | NoBridge =>
    unfold InnerParametersGenerator.generate
    rw [ha, he]
    rfl
  | Other k =>
    unfold InnerParametersGenerator.generate
    rw [ha, he]
    rfl

/-- Claim C10: the display string of `NoRelayAvailable` is the literal
"No bridge available", character-identical to the display string of
`NoBridgeAvailable`, although the two variants are distinct. -/
theorem noRelayAvailable_display_collides :
    Error.display .NoRelayAvailable = "No bridge available" ∧
    Error.display .NoRelayAvailable = Error.display .NoBridgeAvailable ∧
    Error.NoRelayAvailable ≠ Error.NoBridgeAvailable :=
  ⟨rfl, rfl, by decide⟩

/-- Claim C2: for every platform, state and retry attempt, if the cached
`AuthDetails` is absent then `generate` returns the `NoAuthDetails` error with
the state untouched, and the outcome is the same whatever the relay selector
is, i.e. the selector is never consulted. -/
theorem generate_no_auth_details (platform : Platform)
    (s : InnerParametersGenerator) (n : Nat) (h : s.auth_details = none) :
    InnerParametersGenerator.generate platform s n =
      .ok (.error .NoAuthDetails, s) ∧
    ∀ sel : RelaySelector,
      InnerParametersGenerator.generate platform
          { s with relay_selector := sel } n =
        .ok (.error .NoAuthDetails, { s with relay_selector := sel }) := by
  constructor
  · unfold InnerParametersGenerator.generate
    rw [h]
  · intro sel
    unfold InnerParametersGenerator.generate
    simp [h]

/-- Witness for C2 at a concrete state with no cached credentials. -/
theorem generate_no_auth_details_witness :
    InnerParametersGenerator.generate .desktop stateNoAuth 0 =
      .ok (.error .NoAuthDetails, stateNoAuth) :=
  (generate_no_auth_details .desktop stateNoAuth 0 rfl).1

/-- Claim C3: whenever credentials are cached and the relay selector fails,
a `NoBridge` selector error is mapped to `NoBridgeAvailable` and every other
selector error kind is mapped to `NoRelayAvailable`. -/
theorem generate_selector_error_mapping (platform : Platform)
    (s : InnerParametersGenerator) (n : Nat) (a : AuthDetails)
    (ha : s.auth_details = some a) :
    (s.relay_selector n = .error .NoBridge →
      InnerParametersGenerator.generate platform s n =
        .ok (.error .NoBridgeAvailable, s)) ∧
    ∀ k : Nat, s.relay_selector n = .error (.Other k) →
      InnerParametersGenerator.generate platform s n =
        .ok (.error .NoRelayAvailable, s) := by
  constructor
  · intro he
    exact generate_selector_error platform ha he
  · intro k he
    exact generate_selector_error platform ha he

/-- Witness for C3 at a concrete state whose selector reports `NoBridge`. -/
theorem generate_selector_error_mapping_witness :
    InnerParametersGenerator.generate .desktop stateAuthNoBridge 0 =
      .ok (.error .NoBridgeAvailable, stateAuthNoBridge) :=
  (generate_selector_error_mapping .desktop stateAuthNoBridge 0
    sampleAuth rfl).1 rfl

/-- Every error return of `create_tunnel_parameters` leaves the state exactly
as it was: the only error exit is the `NoAuthDetails` check, which precedes
the assignment to `last_generated_relays`. -/
theorem create_error_frame {platform : Platform} {s : InnerParametersGenerator}
    {relay : Relay} {entry : Option Relay} {endpoint : MullvadEndpoint}
    {bridge : Option SelectedBridge} {obfuscator : Option SelectedObfuscator}
    {e : Error} {t : InnerParametersGenerator}
    (h : InnerParametersGenerator.create_tunnel_parameters platform s relay
      entry endpoint bridge obfuscator = .ok (.error e, t)) :
    t = s := by
  unfold InnerParametersGenerator.create_tunnel_parameters at h
  split at h <;> (try split at h) <;> (try split at h)
  all_goals simp_all

/-- Every error return of `generate` leaves the state exactly as it was. -/
theorem generate_error_frame {platform : Platform}
    {s : InnerParametersGenerator} {n : Nat} {e : Error}
    {t : InnerParametersGenerator}
    (h : InnerParametersGenerator.generate platform s n = .ok (.error e, t)) :
    t = s := by
  unfold InnerParametersGenerator.generate at h
  split at h
  · simp_all
  · split at h
    · split at h <;> simp_all
    · exact create_error_frame h
    · simp_all
    · simp_all

/-- Claim C5: whenever `generate` returns an error, the post-state agrees with
the pre-state on both `last_generated_relays` and `auth_details` (indeed the
whole state is unchanged, by `generate_error_frame`). -/
theorem generate_error_preserves_caches (platform : Platform)
    (s : InnerParametersGenerator) (n : Nat) (e : Error)
    (t : InnerParametersGenerator)
    (h : InnerParametersGenerator.generate platform s n = .ok (.error e, t)) :
    t.last_generated_relays = s.last_generated_relays ∧
    t.auth_details = s.auth_details := by
  rw [generate_error_frame h]
  exact ⟨rfl, rfl⟩

/-- Witness for C5: a concrete failing call (selector reports `NoBridge`)
whose post-state caches match the pre-state caches. -/
theorem generate_error_preserves_caches_witness :
    stateAuthNoBridge.last_generated_relays =
      stateAuthNoBridge.last_generated_relays ∧
    stateAuthNoBridge.auth_details = stateAuthNoBridge.auth_details :=
  generate_error_preserves_caches .desktop stateAuthNoBridge 0
    .NoBridgeAvailable stateAuthNoBridge rfl

/-! ## Equation lemmas for the individual branches of `generate` -/

/-- The bridge relay recorded on the OpenVPN path: a normal bridge supplies
its relay, a custom bridge and no bridge supply nothing. -/
def bridgeRelay : Option SelectedBridge → Option Relay
  | some (.Normal _ relay) => some relay
  | some (.Custom _) => none
  | none => none

/-- The proxy settings attached on the OpenVPN path. -/
def bridgeSettings : Option SelectedBridge → Option ProxySettings
  | some (.Normal settings _) => some settings
  | some (.Custom settings) => some settings
  | none => none

/-- The obfuscator relay recorded on the WireGuard path. -/
def obfuscatorRelay : Option SelectedObfuscator → Option Relay
  | some obfuscator => some obfuscator.relay
  | none => none

/-- The obfuscation config attached on the WireGuard path. -/
def obfuscatorConfigOf : Option SelectedObfuscator → Option ObfuscatorConfig
  | some obfuscator => some obfuscator.config
  | none => none

/-- The `LastSelectedRelays` value that the normal-selection path writes,
as a function of the selection. -/
def selectedRelayChain (c : NormalSelectedRelay) (b : Option SelectedBridge)
    (o : Option SelectedObfuscator) : LastSelectedRelays :=
  match c.endpoint with
  | .OpenVpn _ => .OpenVpn c.exit_relay (bridgeRelay b)
  | .Wireguard _ => .WireGuard c.entry_relay c.exit_relay (obfuscatorRelay o)

theorem generate_noauth_eq (platform : Platform)
    {s : InnerParametersGenerator} {n : Nat} (h : s.auth_details = none) :
    InnerParametersGenerator.generate platform s n =
      .ok (.error .NoAuthDetails, s) := by
  unfold InnerParametersGenerator.generate
  rw [h]

theorem generate_custom_some_eq (platform : Platform)
    {s : InnerParametersGenerator} {n : Nat} {a : AuthDetails}
    {c : CustomTunnelEndpoint} {b : Option SelectedBridge}
    {o : Option SelectedObfuscator} {params : TunnelParameters}
    (ha : s.auth_details = some a)
    (hsel : s.relay_selector n = .ok (.Custom c, b, o))
    (hres : c.resolved = some params) :
    InnerParametersGenerator.generate platform s n = .ok (.ok params, s) := by
  unfold InnerParametersGenerator.generate
  rw [ha, hsel]
  simp [CustomTunnelEndpoint.to_tunnel_parameters, hres]

theorem generate_custom_none_eq (platform : Platform)
    {s : InnerParametersGenerator} {n : Nat} {a : AuthDetails}
    {c : CustomTunnelEndpoint} {b : Option SelectedBridge}
    {o : Option SelectedObfuscator}
    (ha : s.auth_details = some a)
    (hsel : s.relay_selector n = .ok (.Custom c, b, o))
    (hres : c.resolved = none) :
    InnerParametersGenerator.generate platform s n =
      .ok (.error .ResolveCustomHostnameError, s) := by
  unfold InnerParametersGenerator.generate
  rw [ha, hsel]
  simp [CustomTunnelEndpoint.to_tunnel_parameters, hres]

theorem generate_normal_eq (platform : Platform)
    {s : InnerParametersGenerator} {n : Nat} {a : AuthDetails}
    {c : NormalSelectedRelay} {b : Option SelectedBridge}
    {o : Option SelectedObfuscator}
    (ha : s.auth_details = some a)
    (hsel : s.relay_selector n = .ok (.Normal c, b, o)) :
    InnerParametersGenerator.generate platform s n =
      s.create_tunnel_parameters platform c.exit_relay c.entry_relay
        c.endpoint b o := by
  unfold InnerParametersGenerator.generate
  rw [ha, hsel]

theorem create_wireguard_eq (platform : Platform)
    {s : InnerParametersGenerator} {a : AuthDetails}
    (ha : s.auth_details = some a) (relay : Relay) (entry : Option Relay)
    (ep : MullvadWireguardEndpoint) (bridge : Option SelectedBridge)
    (obfuscator : Option SelectedObfuscator) :
    s.create_tunnel_parameters platform relay entry (.Wireguard ep) bridge
        obfuscator =
      .ok (.ok (.wireguard {
        connection := {
          tunnel := {
            private_key := a.wg_data.private_key
            addresses := [
              .v4 a.wg_data.addresses.ipv4_address.ip,
              .v6 a.wg_data.addresses.ipv6_address.ip] }
          peer := ep.peer
          exit_peer := ep.exit_peer
          ipv4_gateway := ep.ipv4_gateway
          ipv6_gateway := some ep.ipv6_gateway }
        options := s.tunnel_options.wireguard.options
        generic_options := s.tunnel_options.generic
        obfuscation := obfuscatorConfigOf obfuscator }),
        { s with last_generated_relays := some (.WireGuard entry relay (obfuscatorRelay obfuscator)) }) := by
  unfold InnerParametersGenerator.create_tunnel_parameters
  rw [ha]
  cases obfuscator <;> rfl

theorem create_openvpn_desktop_eq {s : InnerParametersGenerator}
    {a : AuthDetails} (ha : s.auth_details = some a) (relay : Relay)
    (entry : Option Relay) (ep : OpenVpnEndpoint)
    (bridge : Option SelectedBridge) (obfuscator : Option SelectedObfuscator) :
    s.create_tunnel_parameters .desktop relay entry (.OpenVpn ep) bridge
        obfuscator =
      .ok (.ok (.openvpn {
        config := { endpoint := ep, username := a.openvpn_user, password := "-" }
        options := s.tunnel_options.openvpn
        generic_options := s.tunnel_options.generic
        proxy := bridgeSettings bridge }),
        { s with last_generated_relays := some (.OpenVpn relay (bridgeRelay bridge)) }) := by
  unfold InnerParametersGenerator.create_tunnel_parameters
  rw [ha]
  cases bridge with
  | none => rfl
  | some b2 => cases b2 <;> rfl

theorem create_openvpn_android_eq {s : InnerParametersGenerator}
    {a : AuthDetails} (ha : s.auth_details = some a) (relay : Relay)
    (entry : Option Relay) (ep : OpenVpnEndpoint)
    (bridge : Option SelectedBridge) (obfuscator : Option SelectedObfuscator) :
    s.create_tunnel_parameters .android relay entry (.OpenVpn ep) bridge
        obfuscator = .panic "OpenVPN is not supported on Android" := by
  unfold InnerParametersGenerator.create_tunnel_parameters
  rw [ha]

/-! ## Fixtures for the success scenarios -/

def sampleCustomParams : TunnelParameters :=
  .openvpn {
    config := { endpoint := ⟨5⟩, username := "custom-user", password := "pw" }
    options := ⟨0⟩
    generic_options := ⟨0⟩
    proxy := none }

def selectorCustomOk : RelaySelector :=
  fun _ => .ok (.Custom ⟨some sampleCustomParams⟩, none, none)

def stateCustomOk : InnerParametersGenerator :=
  { relay_selector := selectorCustomOk
    tunnel_options := sampleOptions
    auth_details := some sampleAuth
    last_generated_relays := none }

def relayStockholm : Relay :=
  { hostname := "se1-wireguard"
    location := some {
      country := "Sweden", city := "Stockholm", latitude := 59, longitude := 18 } }

def sampleWgEndpoint : MullvadWireguardEndpoint :=
  { peer := ⟨7⟩, exit_peer := none, ipv4_gateway := ⟨100⟩, ipv6_gateway := ⟨200⟩ }

def normalStockholm : NormalSelectedRelay :=
  { exit_relay := relayStockholm
    entry_relay := none
    endpoint := .Wireguard sampleWgEndpoint }

def selectorStockholm : RelaySelector :=
  fun _ => .ok (.Normal normalStockholm, none, none)

def stateStockholm : InnerParametersGenerator :=
  { relay_selector := selectorStockholm
    tunnel_options := sampleOptions
    auth_details := some sampleAuth
    last_generated_relays := none }

def stateStockholmAfter : InnerParametersGenerator :=
  { stateStockholm with last_generated_relays := some (.WireGuard none relayStockholm none) }

def wgParamsStockholm : TunnelParameters :=
  .wireguard {
    connection := {
      tunnel := {
        private_key := sampleWgData.private_key
        addresses := [.v4 ⟨10⟩, .v6 ⟨20⟩] }
      peer := ⟨7⟩
      exit_peer := none
      ipv4_gateway := ⟨100⟩
      ipv6_gateway := some ⟨200⟩ }
    options := sampleOptions.wireguard.options
    generic_options := sampleOptions.generic
    obfuscation := none }

/-! ## Claim C1 -/

/-- Counterexample to C1 as stated: a successful generation from a custom
relay selection after which `last_generated_relays` still holds nothing, so
the record was not overwritten with the relay chain just used. -/
theorem custom_success_does_not_record :
    InnerParametersGenerator.generate .desktop stateCustomOk 0 =
      .ok (.ok sampleCustomParams, stateCustomOk) ∧
    stateCustomOk.last_generated_relays = none :=
  ⟨rfl, rfl⟩

/-- Claim C1 (amended): a successful generation from a normal relay selection
overwrites `last_generated_relays` with the chain just used; a successful
generation from a custom relay selection leaves the whole state, record
included, unchanged; and no failing call modifies the record. -/
theorem generate_record_semantics (platform : Platform)
    (s : InnerParametersGenerator) (n : Nat)
    (res : Except Error TunnelParameters) (t : InnerParametersGenerator)
    (h : InnerParametersGenerator.generate platform s n = .ok (res, t)) :
    (∀ e : Error, res = .error e →
      t.last_generated_relays = s.last_generated_relays) ∧
    (∀ (c : CustomTunnelEndpoint) (b : Option SelectedBridge)
        (o : Option SelectedObfuscator),
      s.relay_selector n = .ok (.Custom c, b, o) → t = s) ∧
    (∀ (c : NormalSelectedRelay) (b : Option SelectedBridge)
        (o : Option SelectedObfuscator) (params : TunnelParameters),
      s.relay_selector n = .ok (.Normal c, b, o) → res = .ok params →
      t.last_generated_relays = some (selectedRelayChain c b o)) := by
  refine ⟨?_, ?_, ?_⟩
  · intro e he
    subst he
    rw [generate_error_frame h]
  · intro c b o hsel
    cases hauth : s.auth_details with
    | none =>
      rw [generate_noauth_eq platform hauth] at h
      simp only [PanicOr.ok.injEq, Prod.mk.injEq] at h
      exact h.2.symm
    | some a =>
      cases hres : c.resolved with
      | some params =>
        rw [generate_custom_some_eq platform hauth hsel hres] at h
        simp only [PanicOr.ok.injEq, Prod.mk.injEq] at h
        exact h.2.symm
      | none =>
        rw [generate_custom_none_eq platform hauth hsel hres] at h
        simp only [PanicOr.ok.injEq, Prod.mk.injEq] at h
        exact h.2.symm
  · intro c b o params hsel hres
    subst hres
    cases hauth : s.auth_details with
    | none =>
      rw [generate_noauth_eq platform hauth] at h
      simp at h
    | some a =>
      rw [generate_normal_eq platform hauth hsel] at h
      cases hend : c.endpoint with
      | OpenVpn ep =>
        rw [hend] at h
        cases platform with
        | android =>
          rw [create_openvpn_android_eq hauth] at h
          simp at h
        | desktop =>
          rw [create_openvpn_desktop_eq hauth] at h
          simp only [PanicOr.ok.injEq, Prod.mk.injEq] at h
          rw [← h.2]
          simp [selectedRelayChain, hend]
      | Wireguard ep =>
        rw [hend, create_wireguard_eq platform hauth] at h
        simp only [PanicOr.ok.injEq, Prod.mk.injEq] at h
        rw [← h.2]
        simp [selectedRelayChain, hend]

/-- Witness for C1 (amended): a concrete normal WireGuard generation records
the exit relay chain just used. -/
theorem generate_record_semantics_witness :
    stateStockholmAfter.last_generated_relays =
      some (selectedRelayChain normalStockholm none none) :=
  (generate_record_semantics .desktop stateStockholm 0
    (.ok wgParamsStockholm) stateStockholmAfter rfl).2.2
    normalStockholm none none wgParamsStockholm rfl rfl

/-! ## Claim C4 -/

/-- Claim C4: every successful generation through the normal WireGuard path
produces a tunnel identity whose address list is exactly the cached
credential IPv4 address followed by the cached credential IPv6 address, and
whose private key is the cached credential private key. -/
theorem wireguard_identity_from_cached_credentials (platform : Platform)
    (s : InnerParametersGenerator) (n : Nat) (a : AuthDetails)
    (c : NormalSelectedRelay) (b : Option SelectedBridge)
    (o : Option SelectedObfuscator) (wp : WireguardTunnelParameters)
    (t : InnerParametersGenerator)
    (ha : s.auth_details = some a)
    (hsel : s.relay_selector n = .ok (.Normal c, b, o))
    (h : InnerParametersGenerator.generate platform s n =
      .ok (.ok (.wireguard wp), t)) :
    wp.connection.tunnel.addresses =
      [.v4 a.wg_data.addresses.ipv4_address.ip,
       .v6 a.wg_data.addresses.ipv6_address.ip] ∧
    wp.connection.tunnel.private_key = a.wg_data.private_key := by
  rw [generate_normal_eq platform ha hsel] at h
  cases hend : c.endpoint with
  | OpenVpn ep =>
    rw [hend] at h
    cases platform with
    | android =>
      rw [create_openvpn_android_eq ha] at h
      simp at h
    | desktop =>
      rw [create_openvpn_desktop_eq ha] at h
      simp at h
  | Wireguard ep =>
    rw [hend, create_wireguard_eq platform ha] at h
    simp only [PanicOr.ok.injEq, Prod.mk.injEq, Except.ok.injEq,
      TunnelParameters.wireguard.injEq] at h
    rw [← h.1]
    exact ⟨rfl, rfl⟩

/-- Witness for C4: the concrete Stockholm scenario of the spec, with cached
addresses `10` and `20`. -/
theorem wireguard_identity_witness :
    ([.v4 ⟨10⟩, .v6 ⟨20⟩] : List IpAddr) =
      [.v4 sampleAuth.wg_data.addresses.ipv4_address.ip,
       .v6 sampleAuth.wg_data.addresses.ipv6_address.ip] ∧
    (⟨1⟩ : PrivateKey) = sampleAuth.wg_data.private_key :=
  wireguard_identity_from_cached_credentials .desktop stateStockholm 0
    sampleAuth normalStockholm none none
    { connection := {
        tunnel := { private_key := ⟨1⟩, addresses := [.v4 ⟨10⟩, .v6 ⟨20⟩] }
        peer := ⟨7⟩
        exit_peer := none
        ipv4_gateway := ⟨100⟩
        ipv6_gateway := some ⟨200⟩ }
      options := sampleOptions.wireguard.options
      generic_options := sampleOptions.generic
      obfuscation := none }
    stateStockholmAfter rfl rfl rfl

/-- The post-state of a successful generation from a normal relay selection:
the record is overwritten with the chain of the selection, nothing else
changes. -/
theorem generate_normal_success_state {platform : Platform}
    {s : InnerParametersGenerator} {n : Nat} {c : NormalSelectedRelay}
    {b : Option SelectedBridge} {o : Option SelectedObfuscator}
    {params : TunnelParameters} {t : InnerParametersGenerator}
    (hsel : s.relay_selector n = .ok (.Normal c, b, o))
    (h : InnerParametersGenerator.generate platform s n = .ok (.ok params, t)) :
    t = { s with last_generated_relays := some (selectedRelayChain c b o) } := by
  cases hauth : s.auth_details with
  | none =>
    rw [generate_noauth_eq platform hauth] at h
    simp at h
  | some a =>
    rw [generate_normal_eq platform hauth hsel] at h
    cases hend : c.endpoint with
    | OpenVpn ep =>
      cases platform with
      | android =>
        rw [hend, create_openvpn_android_eq hauth] at h
        simp at h
      | desktop =>
        rw [hend, create_openvpn_desktop_eq hauth] at h
        simp only [PanicOr.ok.injEq, Prod.mk.injEq] at h
        rw [← h.2]
        simp [selectedRelayChain, hend, hauth]
    | Wireguard ep =>
      rw [hend, create_wireguard_eq platform hauth] at h
      simp only [PanicOr.ok.injEq, Prod.mk.injEq] at h
      rw [← h.2]
      simp [selectedRelayChain, hend, hauth]

/-! ## Claim C6 -/

/-- Counterexample to C6 as stated: a successful generation (from a custom
relay selection, starting from an empty record) after which
`get_last_location` returns no location at all, rather than a location
populated for the protocol just used. -/
theorem custom_success_location_empty :
    InnerParametersGenerator.generate .desktop stateCustomOk 0 =
      .ok (.ok sampleCustomParams, stateCustomOk) ∧
    get_last_location stateCustomOk = .ok none :=
  ⟨rfl, rfl⟩

/-- Claim C6 (amended): after a successful generation from a normal relay
selection whose authoritative relay carries location metadata,
`get_last_location` returns a location populated exactly for the protocol
just used: on the WireGuard variant the exit relay location and hostname are
authoritative, entry and obfuscator hostnames are attached when those relays
are present and the bridge hostname is absent; on the OpenVPN variant the
relay location and hostname are authoritative, the bridge hostname is
attached when a normal bridge is present, and entry and obfuscator hostnames
are absent. -/
theorem get_last_location_after_normal_success (platform : Platform)
    (s : InnerParametersGenerator) (n : Nat) (c : NormalSelectedRelay)
    (b : Option SelectedBridge) (o : Option SelectedObfuscator)
    (params : TunnelParameters) (t : InnerParametersGenerator) (loc : Location)
    (hsel : s.relay_selector n = .ok (.Normal c, b, o))
    (h : InnerParametersGenerator.generate platform s n = .ok (.ok params, t))
    (hloc : c.exit_relay.location = some loc) :
    (∀ ep : MullvadWireguardEndpoint, c.endpoint = .Wireguard ep →
      get_last_location t = .ok (some {
        ipv4 := none
        ipv6 := none
        country := loc.country
        city := some loc.city
        latitude := loc.latitude
        longitude := loc.longitude
        mullvad_exit_ip := true
        hostname := some c.exit_relay.hostname
        bridge_hostname := none
        entry_hostname := c.entry_relay.map (fun r => r.hostname)
        obfuscator_hostname := (obfuscatorRelay o).map (fun r => r.hostname) })) ∧
    (∀ ep : OpenVpnEndpoint, c.endpoint = .OpenVpn ep →
      get_last_location t = .ok (some {
        ipv4 := none
        ipv6 := none
        country := loc.country
        city := some loc.city
        latitude := loc.latitude
        longitude := loc.longitude
        mullvad_exit_ip := true
        hostname := some c.exit_relay.hostname
        bridge_hostname := (bridgeRelay b).map (fun r => r.hostname)
        entry_hostname := none
        obfuscator_hostname := none })) := by
  have ht := generate_normal_success_state hsel h
  constructor
  · intro ep hend
    rw [ht]
    unfold get_last_location
    simp [selectedRelayChain, hend, hloc]
  · intro ep hend
    rw [ht]
    unfold get_last_location
    simp [selectedRelayChain, hend, hloc]

/-- Witness for C6 (amended): the Stockholm scenario of the spec. -/
theorem get_last_location_after_normal_success_witness :
    get_last_location stateStockholmAfter = .ok (some {
      ipv4 := none
      ipv6 := none
      country := "Sweden"
      city := some "Stockholm"
      latitude := 59
      longitude := 18
      mullvad_exit_ip := true
      hostname := some "se1-wireguard"
      bridge_hostname := none
      entry_hostname := none
      obfuscator_hostname := none }) :=
  (get_last_location_after_normal_success .desktop stateStockholm 0
    normalStockholm none none wgParamsStockholm stateStockholmAfter
    { country := "Sweden", city := "Stockholm", latitude := 59, longitude := 18 }
    rfl rfl rfl).1 sampleWgEndpoint rfl

/-! ## Claim C7 -/

/-- Claim C7: construction fails with the `NoAuthDetails` error exactly when
the initial synchronous credential fetch itself fails; a successful fetch
reporting no credentials still constructs, with an empty `AuthDetails` cache;
and `get_last_location` on any freshly constructed state returns nothing. -/
theorem construction_and_initial_location
    (fetch : Except FetchError (Option DeviceData)) (sel : RelaySelector)
    (opts : TunnelOptions) :
    (∀ e : FetchError, fetch = .error e →
      ParametersGenerator.new fetch sel opts = .error .NoAuthDetails) ∧
    (∀ d : Option DeviceData, fetch = .ok d →
      ParametersGenerator.new fetch sel opts = .ok {
        relay_selector := sel
        tunnel_options := opts
        auth_details := d.map (fun data => {
          openvpn_user := data.token, wg_data := data.wg_data })
        last_generated_relays := none }) ∧
    (ParametersGenerator.new (.ok none) sel opts = .ok {
        relay_selector := sel
        tunnel_options := opts
        auth_details := none
        last_generated_relays := none }) ∧
    (∀ t : InnerParametersGenerator,
      ParametersGenerator.new fetch sel opts = .ok t →
      get_last_location t = .ok none) := by
  refine ⟨?_, ?_, rfl, ?_⟩
  · intro e he
    subst he
    rfl
  · intro d hd
    subst hd
    rfl
  · intro t ht
    cases fetch with
    | error e => simp [ParametersGenerator.new] at ht
    | ok d =>
      simp only [ParametersGenerator.new, Except.ok.injEq] at ht
      rw [← ht]
      rfl

/-- Witness for C7: constructing from a successful fetch that reports no
credentials yields a state on which `get_last_location` returns nothing. -/
theorem construction_and_initial_location_witness :
    get_last_location stateNoAuth = .ok none :=
  (construction_and_initial_location (.ok none) selectorNoBridge
    sampleOptions).2.2.2 stateNoAuth rfl

/-! ## Claim C8 -/

/-- Claim C8: on Android, provided the relay selector never yields a normal
selection with an OpenVPN endpoint, `generate` never reaches the
`unreachable!` panic of the OpenVPN construction arm. -/
theorem android_openvpn_unreachable (s : InnerParametersGenerator) (n : Nat)
    (h : ∀ (c : NormalSelectedRelay) (b : Option SelectedBridge)
        (o : Option SelectedObfuscator),
      s.relay_selector n = .ok (.Normal c, b, o) →
      ∀ ep : OpenVpnEndpoint, c.endpoint ≠ .OpenVpn ep) :
    (InnerParametersGenerator.generate .android s n).isPanic = false := by
  cases hauth : s.auth_details with
  | none =>
    rw [generate_noauth_eq .android hauth]
    rfl
  | some a =>
    cases hsel : s.relay_selector n with
    | error e =>
      rw [generate_selector_error .android hauth hsel]
      rfl
    | ok res =>
      obtain ⟨sel, b, o⟩ := res
      cases sel with
      | Custom c =>
        cases hres : c.resolved with
        | some params =>
          rw [generate_custom_some_eq .android hauth hsel hres]
          rfl
        | none =>
          rw [generate_custom_none_eq .android hauth hsel hres]
          rfl
      | Normal c =>
        rw [generate_normal_eq .android hauth hsel]
        cases hend : c.endpoint with
        | OpenVpn ep => exact absurd hend (h c b o hsel ep)
        | Wireguard ep =>
          rw [create_wireguard_eq .android hauth]
          rfl

/-- Witness for C8: an Android run over a selector that yields a WireGuard
selection does not panic. -/
theorem android_openvpn_unreachable_witness :
    (InnerParametersGenerator.generate .android stateStockholm 0).isPanic =
      false := by
  refine android_openvpn_unreachable stateStockholm 0 ?_
  intro c b o hsel ep hc
  simp only [stateStockholm, selectorStockholm, Except.ok.injEq,
    Prod.mk.injEq, SelectedRelay.Normal.injEq] at hsel
  rw [← hsel.1] at hc
  simp [normalStockholm] at hc

/-! ## Claim C9 -/

def relayNoLocation : Relay :=
  { hostname := "se9-wireguard", location := none }

def selectorNoLocation : RelaySelector :=
  fun _ => .ok (.Normal {
    exit_relay := relayNoLocation
    entry_relay := none
    endpoint := .Wireguard sampleWgEndpoint }, none, none)

def stateNoLocation : InnerParametersGenerator :=
  { relay_selector := selectorNoLocation
    tunnel_options := sampleOptions
    auth_details := some sampleAuth
    last_generated_relays := none }

def stateNoLocationAfter : InnerParametersGenerator :=
  { stateNoLocation with last_generated_relays := some (.WireGuard none relayNoLocation none) }

/-- Claim C9: `get_last_location` unwraps the recorded authoritative relay
location unconditionally: whenever the record holds a WireGuard chain whose
exit relay lacks location metadata, or an OpenVPN chain whose relay lacks
location metadata, the call panics instead of returning nothing.  Moreover a
successful generation can record such a relay (the tunnel parameters built on
the WireGuard path never read the relay location), as the closing concrete
run shows. -/
theorem get_last_location_unwraps_location :
    (∀ (s : InnerParametersGenerator) (entry obf : Option Relay)
        (exitRelay : Relay),
      s.last_generated_relays = some (.WireGuard entry exitRelay obf) →
      exitRelay.location = none →
      (get_last_location s).isPanic = true) ∧
    (∀ (s : InnerParametersGenerator) (relay : Relay) (bridge : Option Relay),
      s.last_generated_relays = some (.OpenVpn relay bridge) →
      relay.location = none →
      (get_last_location s).isPanic = true) ∧
    (InnerParametersGenerator.generate .desktop stateNoLocation 0 =
      .ok (.ok wgParamsStockholm, stateNoLocationAfter) ∧
      (get_last_location stateNoLocationAfter).isPanic = true) := by
  refine ⟨?_, ?_, rfl, rfl⟩
  · intro s entry obf exitRelay hrec hloc
    unfold get_last_location
    rw [hrec]
    simp [hloc, PanicOr.isPanic]
  · intro s relay bridge hrec hloc
    unfold get_last_location
    rw [hrec]
    simp [hloc, PanicOr.isPanic]

/-- Witness for C9: the concrete location-free WireGuard record panics. -/
theorem get_last_location_unwraps_location_witness :
    (get_last_location stateNoLocationAfter).isPanic = true :=
  (get_last_location_unwraps_location).1 stateNoLocationAfter none none
    relayNoLocation rfl rfl

end Tunnel
